import Mathlib

/-!
Shallow embedding of the KEF speaker client `aiokef/aiokef.py` and proofs about it.

Conventions of the embedding:
* Machine bytes and the raw device volume value are `ℤ` (all values involved are
  in `[0, 255]`); Python `%` on these nonnegative values agrees with `Int.emod`.
* Python floats are modelled as `ℚ`; the arithmetic the code performs on them
  (`max`, `min`, `+`, `* 100`, `/ 100`, `int()` truncation) is exact on the
  values involved.
* Fallible code returns `Except PyErr`; `PyErr` names the Python exception the
  code raises on that path.
* The network transport is abstracted: where a method calls
  `self._comm.send_message`, the device's reply byte is taken either from an
  explicit current device state (volume methods, where the device applies each
  accepted write) or from a reply oracle `Nat → Nat` indexed by the running
  count of exchanges (source/power methods).
-/

/-- Python exceptions raised by code paths modelled here. -/
inductive PyErr
  | assertionError
  | attributeError
  | connectionError
  | indexError
  | unboundLocalError
deriving DecidableEq

/-- Module constant `_RESPONSE_OK = 17` (aiokef.py line 14; leading underscores of
the Python names are dropped throughout). -/
def RESPONSE_OK : Nat := 17

/-- Module constant `_MAX_ATTEMPT_TILL_SUCCESS = 5` (line 18). -/
def MAX_ATTEMPT_TILL_SUCCESS : Nat := 5

/-- Module constant `_MAX_SEND_MESSAGE_TRIES = 5` (line 19). -/
def MAX_SEND_MESSAGE_TRIES : Nat := 5

/-- Module constant `_MAX_CONNECTION_RETRIES = 10` (line 20). -/
def MAX_CONNECTION_RETRIES : Nat := 10

/-- Module constant `_VOLUME_SCALE = 100.0` (line 17). -/
def VOLUME_SCALE : ℚ := 100

/-- Python `int()` applied to a rational: truncation toward zero. -/
def pyInt (q : ℚ) : ℤ := if 0 ≤ q then ⌊q⌋ else ⌈q⌉

/-- `AsyncKefSpeaker.get_volume_and_is_muted` (lines 233-241), with the device's raw
volume reply byte abstracted as `raw`.  The code computes `is_muted = volume >= 128`
on the raw integer and returns `volume / _VOLUME_SCALE if scale else volume`.
(The `if volume is None` branch is unreachable here: the reply is an integer.) -/
def get_volume_and_is_muted (scale : Bool) (raw : ℤ) : ℚ × Bool :=
  ((if scale then (raw : ℚ) / VOLUME_SCALE else (raw : ℚ)), decide (128 ≤ raw))

/-- `AsyncKefSpeaker.get_volume` (lines 259-262): scaled volume, `none` if muted. -/
def get_volume (raw : ℤ) : Option ℚ :=
  let p := get_volume_and_is_muted true raw
  if p.2 then none else some p.1

/-- `AsyncKefSpeaker.is_muted` (lines 286-288). -/
def is_muted (raw : ℤ) : Bool := (get_volume_and_is_muted false raw).2

/-- The raw byte `AsyncKefSpeaker.mute` (lines 290-292) writes to the device:
`int(volume) % 128 + 128` where `volume` is the unscaled current raw byte.
The device's raw volume state becomes this value (the write is acknowledged
with `_RESPONSE_OK`). -/
def muteWrite (raw : ℤ) : ℤ := pyInt (get_volume_and_is_muted false raw).1 % 128 + 128

/-- The raw byte `AsyncKefSpeaker.unmute` (lines 294-296) writes: `int(volume) % 128`. -/
def unmuteWrite (raw : ℤ) : ℤ := pyInt (get_volume_and_is_muted false raw).1 % 128

/-- `AsyncKefSpeaker.set_volume` (lines 264-267): clamp `value` to
`[0, maximum_volume]`, send `int(volume * _VOLUME_SCALE)`, return the clamp.
Result: (returned value, raw byte written to the device). -/
def set_volume (maximum_volume value : ℚ) : ℚ × ℤ :=
  let volume := max 0 (min maximum_volume value)
  (volume, pyInt (volume * VOLUME_SCALE))

/-- `AsyncKefSpeaker._change_volume` (lines 269-276) against a device whose current
raw volume byte is `raw`.  Mirrors the statement order of the source: `get_volume`
first, then `is_muted`, then `unmute()` if muted (the device state changes), then
`assert volume is not None`, then `set_volume(volume + step)`.
Result: (outcome, device raw byte after the call). -/
def change_volume (maximum_volume step : ℚ) (raw : ℤ) : Except PyErr ℚ × ℤ :=
  let volume := get_volume raw
  let m := is_muted raw
  let raw1 := if m then unmuteWrite raw else raw
  match volume with
  | none => (Except.error PyErr.assertionError, raw1)
  | some v =>
    let p := set_volume maximum_volume (v + step)
    (Except.ok p.1, p.2)

/-- Outcome of one `asyncio.open_connection` attempt inside
`_AsyncCommunicator.open_connection` (lines 72-98): the attempt succeeds within
the timeout, raises `ConnectionRefusedError`, raises `BlockingIOError`
("Connection incomming"), or raises `asyncio.TimeoutError`/`OSError`. -/
inductive ConnOutcome
  | success
  | refused
  | incoming
  | terminal
deriving DecidableEq

/-- How a run of the `open_connection` retry loop ends. `offlineErr` is
`ConnectionRefusedError("Speaker is offline.")`, `triesExceeded` is
`ConnectionRefusedError("Connection tries exceeded.")`, and `outOfTrace` means
the supplied finite outcome trace was exhausted while the loop was still
running (the loop wanted to make a further attempt). -/
inductive ConnRunResult
  | connected
  | offlineErr
  | triesExceeded
  | outOfTrace
deriving DecidableEq

/-- Observable effects of one run of the retry loop: how it ended, how many
connection attempts were made, the successive `asyncio.sleep` durations in
seconds, and the value assigned to `_is_online` (`none` if never assigned). -/
structure ConnRun where
  result : ConnRunResult
  attempts : Nat
  sleeps : List Nat
  onlineUpdate : Option Bool
deriving DecidableEq

/-- The `while retries < _MAX_CONNECTION_RETRIES` loop of
`_AsyncCommunicator.open_connection` (lines 72-98), one trace entry consumed per
connection attempt.  `retries` is checked before each attempt.  A refused
attempt sleeps 1s and increments `retries`; a spurious connection-incoming
attempt sets `retries = 0`, sleeps 1s, and then the loop-end `retries += 1`
leaves it at 1 (written `0 + 1` below); a terminal outcome sets
`_is_online = False` and raises the offline error at once; success sets
`_is_online = True` and returns.  `attempts` and `sleeps` accumulate
(`sleeps` in reverse order). -/
def openConnectionLoop : List ConnOutcome → Nat → Nat → List Nat → ConnRun
  | trace, retries, attempts, sleeps =>
    if MAX_CONNECTION_RETRIES ≤ retries then
      ⟨ConnRunResult.triesExceeded, attempts, sleeps.reverse, some false⟩
    else
      match trace with
      | [] => ⟨ConnRunResult.outOfTrace, attempts, sleeps.reverse, none⟩
      | o :: rest =>
        match o with
        | ConnOutcome.success =>
          ⟨ConnRunResult.connected, attempts + 1, sleeps.reverse, some true⟩
        | ConnOutcome.refused =>
          openConnectionLoop rest (retries + 1) (attempts + 1) (1 :: sleeps)
        | ConnOutcome.incoming =>
          openConnectionLoop rest (0 + 1) (attempts + 1) (1 :: sleeps)
        | ConnOutcome.terminal =>
          ⟨ConnRunResult.offlineErr, attempts + 1, sleeps.reverse, some false⟩

/-- State of `_AsyncCommunicator` relevant to the connection lifecycle:
`is_connected` (reader/writer pair present), `_last_time_stamp`, `_is_online`. -/
structure CommState where
  connected : Bool
  lastTimeStamp : ℚ
  isOnline : Bool
deriving DecidableEq

/-- `_AsyncCommunicator.open_connection` (lines 68-98) as a whole: if
`is_connected` it logs and returns at once — no attempt, no state change;
otherwise it runs the retry loop and on success sets `_is_online = True` and
`_last_time_stamp = time.time()` (the parameter `now`). -/
def open_connection (s : CommState) (now : ℚ) (trace : List ConnOutcome) :
    CommState × ConnRun :=
  if s.connected then (s, ⟨ConnRunResult.connected, 0, [], none⟩)
  else
    let r := openConnectionLoop trace 0 0 []
    ({ connected := decide (r.result = ConnRunResult.connected),
       lastTimeStamp := if r.result = ConnRunResult.connected then now else s.lastTimeStamp,
       isOnline := r.onlineUpdate.getD s.isOnline }, r)

/-- What awaiting `self._reader.read(100)` yields in
`_AsyncCommunicator._send_message` (lines 100-116): either no reply within the
timeout (`asyncio.TimeoutError`) or a byte string. -/
inductive ReadOutcome
  | timeout
  | data (bytes : List Nat)
deriving DecidableEq

/-- `_AsyncCommunicator._send_message` (lines 100-116) after the write.  On
`asyncio.TimeoutError` the handler only logs, and the `finally: return data[-2]`
block then evaluates the never-assigned local `data`: the call raises
`UnboundLocalError`.  On a reply shorter than 2 bytes, `data[-2]` raises
`IndexError`.  Otherwise the byte at position `length - 2` is returned. -/
def send_message_reply (r : ReadOutcome) : Except PyErr Nat :=
  match r with
  | ReadOutcome.timeout => Except.error PyErr.unboundLocalError
  | ReadOutcome.data bytes =>
    if bytes.length < 2 then Except.error PyErr.indexError
    else Except.ok (bytes.getD (bytes.length - 2) 0)

/-- Instance attributes `AsyncKefSpeaker.__init__` (lines 171-185) assigns.
Note: the `ioloop` constructor argument is handed to `_AsyncCommunicator` but
never stored on the speaker object itself. -/
def asyncKefSpeakerInstanceAttrs : List String :=
  ["host", "port", "volume_step", "maximum_volume", "_comm", "sync"]

/-- The coroutine methods defined on the `AsyncKefSpeaker` class. -/
def asyncKefSpeakerCoroutines : List String :=
  ["get_source_and_state", "get_source", "set_source", "get_volume_and_is_muted",
   "_set_volume", "get_volume", "set_volume", "_change_volume", "increase_volume",
   "decrease_volume", "is_muted", "mute", "unmute", "is_online", "is_on",
   "turn_on", "turn_off"]

/-- All attributes `getattr` finds on an `AsyncKefSpeaker` object. -/
def asyncKefSpeakerAttrs : List String :=
  asyncKefSpeakerInstanceAttrs ++ asyncKefSpeakerCoroutines

/-- Attribute lookup on a `SyncKefSpeaker` object (lines 338-359): its own
instance attribute `async_speaker`; any other name goes through `__getattr__`
(line 347), i.e. `getattr(self.async_speaker, attr)`, which succeeds exactly
when the `AsyncKefSpeaker` has the attribute. -/
def syncHasAttr (attr : String) : Bool :=
  decide (attr = "async_speaker" ∨ attr ∈ asyncKefSpeakerAttrs)

/-- Invoking `speaker.sync.<attr>(...)` where the underlying asynchronous call
would produce `asyncResult` (a returned value or a raised exception).
`__getattr__` fetches the attribute from the async speaker (raising
`AttributeError` when absent); for a coroutine function it returns `wrapped`
(lines 353-357), whose body evaluates `self.ioloop.run_until_complete(...)` —
so the lookup of `ioloop` on the facade must succeed before the coroutine is
driven at all. -/
def syncInvoke (attr : String) (asyncResult : Except PyErr ℚ) : Except PyErr ℚ :=
  if attr ∈ asyncKefSpeakerAttrs then
    if attr ∈ asyncKefSpeakerCoroutines then
      if syncHasAttr "ioloop" = true then asyncResult
      else Except.error PyErr.attributeError
    else asyncResult
  else Except.error PyErr.attributeError

/-- A device's reply bytes to the successive `send_message` exchanges, indexed
by the running exchange count. -/
def ReplyOracle : Type := Nat → Nat

/-- `INPUT_SOURCES` (line 24). -/
def INPUT_SOURCES : List (String × Nat) :=
  [("Wifi", 18), ("Bluetooth", 25), ("Aux", 26), ("Opt", 27), ("Usb", 28)]

/-- `INPUT_SOURCES_RESPONSE` (lines 26-30): `INPUT_SOURCES` inverted, plus the
extra entry `31 ↦ Bluetooth` (bluetooth not connected). -/
def INPUT_SOURCES_RESPONSE : List (Nat × String) :=
  [(18, "Wifi"), (25, "Bluetooth"), (26, "Aux"), (27, "Opt"), (28, "Usb"),
   (31, "Bluetooth")]

/-- One attempt of `AsyncKefSpeaker.get_source_and_state` (lines 192-199): the
device answers `COMMANDS["get_source"]` with `o k`; `is_on = response <= 128`;
`response % 128` is decoded through `INPUT_SOURCES_RESPONSE`; an unknown code
raises `ConnectionError`.  Returns the outcome and the next exchange index. -/
def get_source_and_state_once (o : ReplyOracle) (k : Nat) :
    Except PyErr (String × Bool) × Nat :=
  let response := o k
  let isOn := decide (response ≤ 128)
  match INPUT_SOURCES_RESPONSE.lookup (response % 128) with
  | none => (Except.error PyErr.connectionError, k + 1)
  | some source => (Except.ok (source, isOn), k + 1)

/-- The `tenacity` `retry(stop=stop_after_attempt(n), ...)` decorator applied to
an exchange-indexed operation: up to `n` calls, stopping at the first success;
the failure of the last allowed call propagates. -/
def retryStop {α : Type} (f : Nat → Except PyErr α × Nat) : Nat → Nat → Except PyErr α × Nat
  | 0, k => f k
  | n + 1, k =>
    match f k with
    | (Except.ok a, k1) => (Except.ok a, k1)
    | (Except.error e, k1) => if n = 0 then (Except.error e, k1) else retryStop f n k1

/-- `get_source_and_state` as called (its decorator retries it up to
`_MAX_ATTEMPT_TILL_SUCCESS` times). -/
def get_source_and_state (o : ReplyOracle) (k : Nat) : Except PyErr (String × Bool) × Nat :=
  retryStop (get_source_and_state_once o) MAX_ATTEMPT_TILL_SUCCESS k

/-- The confirmation loop of `set_source` (lines 221-226): up to
`_MAX_ATTEMPT_TILL_SUCCESS` polls of `get_source()`; return on a match, else
sleep 0.5 s and poll again.  Falling off the end of the loop returns `None`. -/
def set_source_poll (o : ReplyOracle) (source : String) : Nat → Nat → Except PyErr Unit × Nat
  | 0, k => (Except.ok (), k)
  | n + 1, k =>
    match get_source_and_state o k with
    | (Except.error e, k1) => (Except.error e, k1)
    | (Except.ok (current, _), k1) =>
      if current = source then (Except.ok (), k1) else set_source_poll o source n k1

/-- One attempt of `AsyncKefSpeaker.set_source` (lines 210-226):
`assert source in INPUT_SOURCES`; the code `INPUT_SOURCES[source] % 128`
(`+ 128` for `state="off"`) is sent; a reply other than `_RESPONSE_OK` raises
`ConnectionError`; then the confirmation loop runs. -/
def set_source_once (o : ReplyOracle) (source : String) (stateOff : Bool) (k : Nat) :
    Except PyErr Unit × Nat :=
  match INPUT_SOURCES.lookup source with
  | none => (Except.error PyErr.assertionError, k)
  | some code =>
    let i := code % 128 + (if stateOff then 128 else 0)
    let response := o k
    if response = RESPONSE_OK then set_source_poll o source MAX_ATTEMPT_TILL_SUCCESS (k + 1)
    else (Except.error PyErr.connectionError, k + 1)

/-- `set_source` with its outer `retry` decorator (lines 205-226). -/
def set_source (o : ReplyOracle) (source : String) (stateOff : Bool) (k : Nat) :
    Except PyErr Unit × Nat :=
  retryStop (set_source_once o source stateOff) MAX_ATTEMPT_TILL_SUCCESS k

/-- `AsyncKefSpeaker.is_on` (lines 306-308). -/
def is_on (o : ReplyOracle) (k : Nat) : Except PyErr Bool × Nat :=
  match get_source_and_state o k with
  | (Except.error e, k1) => (Except.error e, k1)
  | (Except.ok p, k1) => (Except.ok p.2, k1)

/-- The confirmation loop of `turn_on` (lines 317-322): up to
`_MAX_ATTEMPT_TILL_SUCCESS` polls of `is_on()`; best-effort — falling off the
end returns `None`. -/
def turn_on_poll (o : ReplyOracle) : Nat → Nat → Except PyErr Unit × Nat
  | 0, k => (Except.ok (), k)
  | n + 1, k =>
    match is_on o k with
    | (Except.error e, k1) => (Except.error e, k1)
    | (Except.ok true, k1) => (Except.ok (), k1)
    | (Except.ok false, k1) => turn_on_poll o n k1

/-- `AsyncKefSpeaker.turn_on` (lines 310-322).  The optional `source` parameter
is rebound by `source, is_on = await self.get_source_and_state()` before any
use; the match binder below shadows the argument exactly as that assignment
does. -/
def turn_on (source : Option String) (o : ReplyOracle) (k : Nat) :
    Except PyErr Unit × Nat :=
  match get_source_and_state o k with
  | (Except.error e, k1) => (Except.error e, k1)
  | (Except.ok (source, isOn), k1) =>
    if isOn then (Except.ok (), k1)
    else
      match set_source o source false k1 with
      | (Except.error e, k2) => (Except.error e, k2)
      | (Except.ok _, k2) => turn_on_poll o MAX_ATTEMPT_TILL_SUCCESS k2

/-- A device that acknowledges the `set_source` write (exchange 0) with
`_RESPONSE_OK` but answers every later `get_source` poll with 18, which decodes
to `Wifi`: a request for any other source is never confirmed. -/
def ackButNeverConfirms : ReplyOracle := fun k => if k = 0 then RESPONSE_OK else 18

/-! ### Theorems -/

theorem pyInt_intCast (n : ℤ) : pyInt (n : ℚ) = n := by
  unfold pyInt
  split
  · exact Int.floor_intCast n
  · exact Int.ceil_intCast n

theorem muteWrite_eq (raw : ℤ) : muteWrite raw = raw % 128 + 128 := by
  simp [muteWrite, get_volume_and_is_muted, pyInt_intCast]

theorem unmuteWrite_eq (raw : ℤ) : unmuteWrite raw = raw % 128 := by
  simp [unmuteWrite, get_volume_and_is_muted, pyInt_intCast]

theorem muteWrite_iterate (n : Nat) (x : ℤ) :
    Nat.iterate muteWrite (n + 1) x = x % 128 + 128 := by
  induction n with
  | zero => simpa using muteWrite_eq x
  | succ k ih =>
    rw [Function.iterate_succ_apply', ih, muteWrite_eq]
    omega

theorem unmuteWrite_iterate (m : Nat) (y : ℤ) :
    Nat.iterate unmuteWrite (m + 1) y = y % 128 := by
  induction m with
  | zero => simpa using unmuteWrite_eq y
  | succ k ih =>
    rw [Function.iterate_succ_apply', ih, unmuteWrite_eq]
    omega

/-- Claim C8: for every raw volume byte `v` in `[0,255]` and every `n, m >= 1`,
calling `mute()` `n` times consecutively and then `unmute()` `m` times
consecutively leaves the device's raw volume value at `v % 128`; a single `mute`
writes `v % 128 + 128` and a single `unmute` writes `v % 128`. -/
theorem c8_mute_unmute_roundtrip (v : ℤ) (n m : Nat)
    (hv0 : 0 ≤ v) (hv1 : v ≤ 255) (hn : 1 ≤ n) (hm : 1 ≤ m) :
    Nat.iterate unmuteWrite m (Nat.iterate muteWrite n v) = v % 128 ∧
    muteWrite v = v % 128 + 128 ∧ unmuteWrite v = v % 128 := by
  refine ⟨?_, muteWrite_eq v, unmuteWrite_eq v⟩
  obtain ⟨n0, rfl⟩ : ∃ n0, n = n0 + 1 := ⟨n - 1, by omega⟩
  obtain ⟨m0, rfl⟩ : ∃ m0, m = m0 + 1 := ⟨m - 1, by omega⟩
  rw [muteWrite_iterate, unmuteWrite_iterate]
  omega

/-- Witness for C8 at the concrete raw byte 200 with two mutes and three unmutes. -/
theorem c8_mute_unmute_roundtrip_witness :
    Nat.iterate unmuteWrite 3 (Nat.iterate muteWrite 2 200) = 200 % 128 :=
  (c8_mute_unmute_roundtrip 200 2 3 (by decide) (by decide) (by decide) (by decide)).1

/-- Claim C9: `set_volume` clamps its argument to `[0, maximum_volume]`
(the configured ceiling, documented to lie between 0 and 1), returns the clamped
value, and in particular `set_volume maxv (-1) = set_volume maxv 0` and
`set_volume maxv 2 = set_volume maxv maxv` (the whole result, returned value and
raw byte sent to the device alike). -/
theorem c9_set_volume_clamps (maxv x : ℚ) (h0 : 0 ≤ maxv) (h1 : maxv ≤ 1) :
    (set_volume maxv x).1 = max 0 (min maxv x) ∧
    0 ≤ (set_volume maxv x).1 ∧ (set_volume maxv x).1 ≤ maxv ∧
    (0 ≤ x → x ≤ maxv → (set_volume maxv x).1 = x) ∧
    set_volume maxv (-1) = set_volume maxv 0 ∧
    set_volume maxv 2 = set_volume maxv maxv := by
  refine ⟨rfl, le_max_left 0 _, max_le h0 (min_le_left maxv x), ?_, ?_, ?_⟩
  · intro hx0 hx1
    show max 0 (min maxv x) = x
    rw [min_eq_right hx1, max_eq_right hx0]
  · have hc : max 0 (min maxv (-1)) = max 0 (min maxv 0) := by
      rw [min_eq_right (by linarith : (-1 : ℚ) ≤ maxv), min_eq_right h0]
      rw [max_eq_left (by norm_num : (-1 : ℚ) ≤ 0), max_eq_left le_rfl]
    show (max 0 (min maxv (-1)), pyInt (max 0 (min maxv (-1)) * VOLUME_SCALE)) =
      (max 0 (min maxv 0), pyInt (max 0 (min maxv 0) * VOLUME_SCALE))
    rw [hc]
  · have hc : max 0 (min maxv 2) = max 0 (min maxv maxv) := by
      rw [min_eq_left (by linarith : maxv ≤ 2), min_self]
    show (max 0 (min maxv 2), pyInt (max 0 (min maxv 2) * VOLUME_SCALE)) =
      (max 0 (min maxv maxv), pyInt (max 0 (min maxv maxv) * VOLUME_SCALE))
    rw [hc]

/-- Witness for C9 at `maxv = 1`, `x = 1/2`. -/
theorem c9_set_volume_clamps_witness :
    set_volume 1 (-1) = set_volume 1 0 ∧ set_volume 1 2 = set_volume 1 1 :=
  ⟨(c9_set_volume_clamps 1 (1/2) (by norm_num) le_rfl).2.2.2.2.1,
   (c9_set_volume_clamps 1 (1/2) (by norm_num) le_rfl).2.2.2.2.2⟩

/-- Claim C1 (evaluating the code on the failing inputs): for every muted raw
volume byte (`128 <= raw`), `_change_volume` first unmutes the device (its raw
byte becomes `raw % 128`) but then fails with `AssertionError`: `get_volume` was
read before the unmute and returned `None` because the speaker was muted, and
the source then executes `assert volume is not None`.  `set_volume` is never
reached, contradicting the claimed result `set_volume (raw % 128 / 100 + step)`. -/
theorem c1_change_volume_muted_asserts (maxv step : ℚ) (raw : ℤ) (h : 128 ≤ raw) :
    change_volume maxv step raw = (Except.error PyErr.assertionError, raw % 128) := by
  have hmut : (get_volume_and_is_muted true raw).2 = true := by
    simp [get_volume_and_is_muted, h]
  have hmut2 : is_muted raw = true := by
    simp [is_muted, get_volume_and_is_muted, h]
  unfold change_volume
  rw [show get_volume raw = none by simp [get_volume, hmut]]
  rw [hmut2]
  simp [unmuteWrite_eq]

/-- Witness for C1 at raw byte 150 (pre-mute level 22) and step 1/20. -/
theorem c1_change_volume_muted_asserts_witness :
    change_volume 1 (1/20) 150 = (Except.error PyErr.assertionError, 22) := by
  rw [c1_change_volume_muted_asserts 1 (1/20) 150 (by decide)]
  simp only [Prod.mk.injEq, true_and]
  norm_num

theorem openConnectionLoop_attempts_le (trace : List ConnOutcome) :
    ∀ retries attempts sleeps, ConnOutcome.incoming ∉ trace →
      (openConnectionLoop trace retries attempts sleeps).attempts ≤
        attempts + (MAX_CONNECTION_RETRIES - retries) := by
  induction trace with
  | nil =>
    intro retries a s _
    unfold openConnectionLoop
    split
    · simp
    · simp
  | cons o rest ih =>
    intro retries a s hmem
    have hrest : ConnOutcome.incoming ∉ rest := fun h => hmem (List.mem_cons_of_mem _ h)
    unfold openConnectionLoop
    split
    · simp
    · rename_i hlt
      have hr : retries < MAX_CONNECTION_RETRIES := by omega
      cases o with
      | success =>
        show a + 1 ≤ a + (MAX_CONNECTION_RETRIES - retries)
        omega
      | refused =>
        exact le_trans (ih (retries + 1) (a + 1) (1 :: s) hrest) (by omega)
      | incoming => exact absurd (List.mem_cons_self _ _) hmem
      | terminal =>
        show a + 1 ≤ a + (MAX_CONNECTION_RETRIES - retries)
        omega

theorem openConnectionLoop_incoming_unbounded (N : Nat) :
    ∀ retries attempts sleeps, retries < MAX_CONNECTION_RETRIES →
      (openConnectionLoop (List.replicate N ConnOutcome.incoming)
        retries attempts sleeps).attempts = attempts + N := by
  induction N with
  | zero =>
    intro retries a s h
    unfold openConnectionLoop
    rw [if_neg (by omega)]
    simp
  | succ k ih =>
    intro retries a s h
    rw [List.replicate_succ]
    unfold openConnectionLoop
    rw [if_neg (by omega)]
    have := ih (0 + 1) (a + 1) (1 :: s) (by norm_num [MAX_CONNECTION_RETRIES])
    simpa [this] using by omega

/-- Claim C4 amended: the connection retry loop makes at most
`_MAX_CONNECTION_RETRIES = 10` attempts — and hence terminates — for every
outcome sequence drawn from success, connection-refused and terminal failure;
but a spurious connection-incoming outcome resets the retry counter, so for
every `N` a sequence of `N` such outcomes keeps the loop running through `N`
attempts: no fixed constant bounds the attempt count over all interleavings. -/
theorem c4_bounded_only_without_incoming :
    (∀ trace : List ConnOutcome, ConnOutcome.incoming ∉ trace →
      (openConnectionLoop trace 0 0 []).attempts ≤ MAX_CONNECTION_RETRIES) ∧
    ∀ N : Nat,
      (openConnectionLoop (List.replicate N ConnOutcome.incoming) 0 0 []).attempts = N := by
  constructor
  · intro trace h
    simpa using openConnectionLoop_attempts_le trace 0 0 [] h
  · intro N
    simpa using openConnectionLoop_incoming_unbounded N 0 0 []
      (by norm_num [MAX_CONNECTION_RETRIES])

/-- Witness for the amended C4 on a concrete incoming-free trace. -/
theorem c4_bounded_only_without_incoming_witness :
    (openConnectionLoop
      [ConnOutcome.refused, ConnOutcome.refused, ConnOutcome.success] 0 0 []).attempts ≤
      MAX_CONNECTION_RETRIES :=
  c4_bounded_only_without_incoming.1
    [ConnOutcome.refused, ConnOutcome.refused, ConnOutcome.success] (by decide)

/-- Counterexample to claim C4 as stated: after eleven spurious
connection-incoming outcomes the loop has already made 11 connection attempts —
more than the configured bound `_MAX_CONNECTION_RETRIES = 10` — and is still
running, because each such outcome resets the retry counter. -/
theorem c4_attempts_exceed_bound_cex :
    (openConnectionLoop (List.replicate 11 ConnOutcome.incoming) 0 0 []).attempts = 11 ∧
    (openConnectionLoop (List.replicate 11 ConnOutcome.incoming) 0 0 []).result =
      ConnRunResult.outOfTrace ∧
    ¬ (openConnectionLoop (List.replicate 11 ConnOutcome.incoming) 0 0 []).attempts ≤
      MAX_CONNECTION_RETRIES := by
  decide

/-- Claim C5 amended: against an endpoint that refuses every attempt, the loop
fails with the "Connection tries exceeded" error after exactly
`_MAX_CONNECTION_RETRIES = 10` attempts, assigns `_is_online = False`, and sleeps
a constant 1 second (not an increasing backoff) between consecutive attempts. -/
theorem c5_all_refused_exhausts (rest : List ConnOutcome) :
    openConnectionLoop (List.replicate 10 ConnOutcome.refused ++ rest) 0 0 [] =
      ⟨ConnRunResult.triesExceeded, 10, List.replicate 10 1, some false⟩ := by
  rw [show List.replicate 10 ConnOutcome.refused =
    [ConnOutcome.refused, ConnOutcome.refused, ConnOutcome.refused, ConnOutcome.refused,
     ConnOutcome.refused, ConnOutcome.refused, ConnOutcome.refused, ConnOutcome.refused,
     ConnOutcome.refused, ConnOutcome.refused] from rfl]
  simp only [openConnectionLoop, MAX_CONNECTION_RETRIES, List.cons_append, List.nil_append]
  rw [openConnectionLoop.eq_def]
  norm_num [MAX_CONNECTION_RETRIES]
  decide

/-- Counterexample to claim C5 as stated: on the all-refused trace the ten
recorded inter-attempt sleeps are all the constant 1 second, so the sleep
sequence is not (strictly) increasing backoff. -/
theorem c5_sleeps_not_increasing_cex :
    (openConnectionLoop (List.replicate 10 ConnOutcome.refused) 0 0 []).sleeps =
      List.replicate 10 1 ∧
    ¬ List.Pairwise (fun a b => a < b)
      (openConnectionLoop (List.replicate 10 ConnOutcome.refused) 0 0 []).sleeps := by
  decide

/-- Claim C7 amended: whenever `open_connection` is called while already
connected, it returns immediately — zero connection attempts, no sleeps — and
leaves the whole state unchanged; in particular `_last_time_stamp` is NOT
refreshed to the current time. -/
theorem c7_connected_early_return (s : CommState) (now : ℚ) (trace : List ConnOutcome)
    (h : s.connected = true) :
    open_connection s now trace = (s, ⟨ConnRunResult.connected, 0, [], none⟩) := by
  simp [open_connection, h]

/-- Witness for the amended C7 at a concrete connected state. -/
theorem c7_connected_early_return_witness :
    open_connection ⟨true, 0, false⟩ 3 [] =
      (⟨true, 0, false⟩, ⟨ConnRunResult.connected, 0, [], none⟩) :=
  c7_connected_early_return ⟨true, 0, false⟩ 3 [] rfl

/-- Counterexample to claim C7 as stated: state connected with
`_last_time_stamp = 0`, called at time `now = 5`: the call makes no attempt and
the timestamp stays 0 — it is not refreshed to 5. -/
theorem c7_no_timestamp_refresh_cex :
    (open_connection ⟨true, 0, true⟩ 5 []).1.lastTimeStamp = 0 ∧
    ((open_connection ⟨true, 0, true⟩ 5 []).1.lastTimeStamp = 5 → False) ∧
    (open_connection ⟨true, 0, true⟩ 5 []).2.attempts = 0 := by
  decide

/-- Claim C6: an exchange whose reply does not arrive within the timeout, or
arrives shorter than 2 bytes, fails with an error — a distinct outcome, never a
sentinel reply-byte value coerced from the absence (a value is produced only
when a reply of at least 2 bytes arrived); a reply of at least 2 bytes yields
the byte at position `length - 2`. -/
theorem c6_reply_or_error :
    send_message_reply ReadOutcome.timeout = Except.error PyErr.unboundLocalError ∧
    (∀ bytes : List Nat, bytes.length < 2 →
      send_message_reply (ReadOutcome.data bytes) = Except.error PyErr.indexError) ∧
    (∀ bytes : List Nat, 2 ≤ bytes.length →
      send_message_reply (ReadOutcome.data bytes) =
        Except.ok (bytes.getD (bytes.length - 2) 0)) ∧
    ∀ r : ReadOutcome, (∀ n : Nat, send_message_reply r ≠ Except.ok n) ∨
      ∃ bytes, r = ReadOutcome.data bytes ∧ 2 ≤ bytes.length := by
  refine ⟨rfl, ?_, ?_, ?_⟩
  · intro bytes h
    simp only [send_message_reply]
    rw [if_pos h]
  · intro bytes h
    simp only [send_message_reply]
    rw [if_neg (by omega)]
  · intro r
    cases r with
    | timeout =>
      left
      intro n h
      exact Except.noConfusion h
    | data bytes =>
      by_cases h : bytes.length < 2
      · left
        intro n hn
        rw [show send_message_reply (ReadOutcome.data bytes) = Except.error PyErr.indexError
          from by simp only [send_message_reply]; rw [if_pos h]] at hn
        exact Except.noConfusion hn
      · right
        exact ⟨bytes, rfl, by omega⟩

/-- Witness for C6: a three-byte reply yields its second-to-last byte. -/
theorem c6_reply_or_error_witness :
    send_message_reply (ReadOutcome.data [82, 17, 48]) = Except.ok 17 :=
  (c6_reply_or_error.2.2.1 [82, 17, 48] (by decide)).trans rfl

/-- Claim C2 (evaluating the code on the failing inputs): invoking any wrapped
coroutine method of the synchronous facade raises `AttributeError`: the wrapper
body evaluates `self.ioloop`, an attribute that neither `SyncKefSpeaker` nor
`AsyncKefSpeaker` defines, before driving the coroutine.  So the facade never
returns the asynchronous method's result, contradicting both the claim and the
class's own docstring. -/
theorem c2_sync_facade_raises (attr : String) (r : Except PyErr ℚ)
    (h : attr ∈ asyncKefSpeakerCoroutines) :
    syncInvoke attr r = Except.error PyErr.attributeError ∧
    syncInvoke attr (Except.ok 1) ≠ Except.ok 1 := by
  have key : ∀ r2 : Except PyErr ℚ, syncInvoke attr r2 = Except.error PyErr.attributeError := by
    intro r2
    have hA : attr ∈ asyncKefSpeakerAttrs := by
      unfold asyncKefSpeakerAttrs
      exact List.mem_append_right _ h
    unfold syncInvoke
    rw [if_pos hA, if_pos h, if_neg (by decide)]
  exact ⟨key r, by rw [key (Except.ok 1)]; intro hc; exact Except.noConfusion hc⟩

/-- Witness for C2 at the coroutine method `mute`. -/
theorem c2_sync_facade_raises_witness :
    syncInvoke "mute" (Except.ok 1) = Except.error PyErr.attributeError ∧
    syncInvoke "mute" (Except.ok 1) ≠ Except.ok 1 :=
  c2_sync_facade_raises "mute" (Except.ok 1) (by decide)

/-- Claim C10: the optional source argument of `turn_on` has no effect on its
behavior: for any two arguments (including `none`) the same exchanges happen
against the same device and the same result is produced, because the argument
is rebound from the device's reported source before any use. -/
theorem c10_turn_on_ignores_argument (s t : Option String) (o : ReplyOracle) (k : Nat) :
    turn_on s o k = turn_on t o k := rfl

theorem retryStop_first_ok {α : Type} (f : Nat → Except PyErr α × Nat) (n k : Nat)
    (a : α) (k1 : Nat) (h : f k = (Except.ok a, k1)) :
    retryStop f n k = (Except.ok a, k1) := by
  cases n with
  | zero => unfold retryStop; rw [h]
  | succ m => unfold retryStop; rw [h]

theorem get_source_and_state_decodes (o : ReplyOracle) (k : Nat) (s : String)
    (hs : INPUT_SOURCES_RESPONSE.lookup (o k % 128) = some s) :
    get_source_and_state o k = (Except.ok (s, decide (o k ≤ 128)), k + 1) := by
  apply retryStop_first_ok
  simp only [get_source_and_state_once]
  rw [hs]

theorem set_source_poll_never_matches (o : ReplyOracle) (source : String)
    (hpolls : ∀ k, 1 ≤ k →
      ∃ s, INPUT_SOURCES_RESPONSE.lookup (o k % 128) = some s ∧ s ≠ source) :
    ∀ n k, 1 ≤ k → set_source_poll o source n k = (Except.ok (), k + n) := by
  intro n
  induction n with
  | zero =>
    intro k hk
    rfl
  | succ m ih =>
    intro k hk
    obtain ⟨s, hs, hne⟩ := hpolls k hk
    unfold set_source_poll
    rw [get_source_and_state_decodes o k s hs]
    simp only
    rw [if_neg hne, ih (k + 1) (by omega)]
    have : k + 1 + m = k + (m + 1) := by omega
    rw [this]

/-- Claim C3 amended: for every device that acknowledges the `set_source` write
with `_RESPONSE_OK` but whose every subsequent `get_source` reply decodes to a
source different from the requested one, `set_source` returns success (`None`)
after exhausting its five polls: the confirmation loop falls off its end without
raising, so no error reaches the caller and the outer retry never re-runs the
operation. -/
theorem c3_set_source_never_confirmed_returns_ok (o : ReplyOracle) (source : String)
    (stateOff : Bool) (hsrc : (INPUT_SOURCES.lookup source).isSome = true)
    (hack : o 0 = RESPONSE_OK)
    (hpolls : ∀ k, 1 ≤ k →
      ∃ s, INPUT_SOURCES_RESPONSE.lookup (o k % 128) = some s ∧ s ≠ source) :
    set_source o source stateOff 0 = (Except.ok (), 6) := by
  obtain ⟨code, hcode⟩ : ∃ c, INPUT_SOURCES.lookup source = some c := by
    cases h : INPUT_SOURCES.lookup source with
    | none => rw [h] at hsrc; exact absurd hsrc (by simp)
    | some c => exact ⟨c, rfl⟩
  apply retryStop_first_ok
  unfold set_source_once
  rw [hcode]
  simp only [hack, if_pos rfl]
  have := set_source_poll_never_matches o source hpolls MAX_ATTEMPT_TILL_SUCCESS 1 (by omega)
  simpa [MAX_ATTEMPT_TILL_SUCCESS] using this

/-- Witness for the amended C3 against the concrete never-confirming device. -/
theorem c3_set_source_never_confirmed_returns_ok_witness :
    set_source ackButNeverConfirms "Usb" false 0 = (Except.ok (), 6) :=
  c3_set_source_never_confirmed_returns_ok ackButNeverConfirms "Usb" false (by decide)
    (by decide)
    (fun k hk =>
      ⟨"Wifi", by
        show INPUT_SOURCES_RESPONSE.lookup (ackButNeverConfirms k % 128) = some "Wifi"
        unfold ackButNeverConfirms
        rw [if_neg (by omega : ¬ k = 0)]
        decide, by decide⟩)

/-- Counterexample to claim C3 as stated: against a device that acknowledges
with `_RESPONSE_OK` but always reports `Wifi`, `set_source("Usb", state="on")`
returns success after its five unconfirmed polls — the operation does not fail,
and the outer `RetryPolicy` is never triggered. -/
theorem c3_set_source_silent_success_cex :
    set_source ackButNeverConfirms "Usb" false 0 = (Except.ok (), 6) ∧
    ∀ e : PyErr, set_source ackButNeverConfirms "Usb" false 0 ≠ (Except.error e, 6) := by
  have hret : set_source ackButNeverConfirms "Usb" false 0 = (Except.ok (), 6) := rfl
  refine ⟨hret, ?_⟩
  intro e h
  rw [hret] at h
  exact Except.noConfusion (congrArg Prod.fst h)
